import Mathlib

/-!
Verification of the deterministic access-code engine of the Asterisk manager
scripts (`serziam.py`, `serziamvalidator.py`, `serziamtest.py`).

The embedding models Python's unbounded integers as `Nat`, byte strings as
`List Nat` (each element a byte value), `datetime` values as a record of
calendar fields, and the interactive unlock prompt as a function over the
list of entered codes.
-/

set_option maxRecDepth 4000

/-! ## SHA-256 (as provided by Python's `hashlib.sha256`) -/

/-- Truncation to a 32-bit word, modelling 32-bit modular arithmetic. -/
def w32 (x : Nat) : Nat := x % 4294967296

/-- Right rotation of a 32-bit word by `n` bits. -/
def rotr (n x : Nat) : Nat := w32 ((x >>> n) ||| (x <<< (32 - n)))

/-- The 64 SHA-256 round constants, written in decimal. -/
def sha256K : List Nat :=
  [1116352408, 1899447441, 3049323471, 3921009573, 961987163, 1508970993,
   2453635748, 2870763221, 3624381080, 310598401, 607225278, 1426881987,
   1925078388, 2162078206, 2614888103, 3248222580, 3835390401, 4022224774,
   264347078, 604807628, 770255983, 1249150122, 1555081692, 1996064986,
   2554220882, 2821834349, 2952996808, 3210313671, 3336571891, 3584528711,
   113926993, 338241895, 666307205, 773529912, 1294757372, 1396182291,
   1695183700, 1986661051, 2177026350, 2456956037, 2730485921, 2820302411,
   3259730800, 3345764771, 3516065817, 3600352804, 4094571909, 275423344,
   430227734, 506948616, 659060556, 883997877, 958139571, 1322822218,
   1537002063, 1747873779, 1955562222, 2024104815, 2227730452, 2361852424,
   2428436474, 2756734187, 3204031479, 3329325298]

/-- The eight SHA-256 initial hash-state words, written in decimal. -/
def sha256H0 : List Nat :=
  [1779033703, 3144134277, 1013904242, 2773480762, 1359893119,
   2600822924, 528734635, 1541459225]

/-- Group a byte list into big-endian 32-bit words. -/
def toWords : List Nat → List Nat
  | b0 :: b1 :: b2 :: b3 :: rest => (((b0 * 256 + b1) * 256 + b2) * 256 + b3) :: toWords rest
  | _ => []

def smallSigma0 (x : Nat) : Nat := (rotr 7 x) ^^^ (rotr 18 x) ^^^ (x >>> 3)
def smallSigma1 (x : Nat) : Nat := (rotr 17 x) ^^^ (rotr 19 x) ^^^ (x >>> 10)
def bigSigma0 (x : Nat) : Nat := (rotr 2 x) ^^^ (rotr 13 x) ^^^ (rotr 22 x)
def bigSigma1 (x : Nat) : Nat := (rotr 6 x) ^^^ (rotr 11 x) ^^^ (rotr 25 x)

/-- Extend the 16 message-schedule words to 64 (counts remaining extensions). -/
def extendW : Nat → List Nat → List Nat
  | 0, w => w
  | t + 1, w =>
    let nw := w32 (smallSigma1 (w.getD (w.length - 2) 0) + w.getD (w.length - 7) 0 +
                   smallSigma0 (w.getD (w.length - 15) 0) + w.getD (w.length - 16) 0)
    extendW t (w ++ [nw])

/-- One SHA-256 round on the eight-word working state. -/
def roundStep (st : List Nat) (kw : Nat × Nat) : List Nat :=
  match st with
  | [a, b, c, d, e, f, g, h] =>
    let ch := (e &&& f) ^^^ ((e ^^^ 0xffffffff) &&& g)
    let maj := (a &&& b) ^^^ (a &&& c) ^^^ (b &&& c)
    let t1 := w32 (h + bigSigma1 e + ch + kw.1 + kw.2)
    let t2 := w32 (bigSigma0 a + maj)
    [w32 (t1 + t2), a, b, c, w32 (d + t1), e, f, g]
  | _ => st

/-- SHA-256 compression of one 64-byte block into the hash state. -/
def sha256Compress (h : List Nat) (block : List Nat) : List Nat :=
  let w := extendW 48 (toWords block)
  let st := (sha256K.zip w).foldl roundStep h
  (h.zip st).map (fun p => w32 (p.1 + p.2))

/-- Standard SHA-256 padding: `0x80`, zeros, then the 64-bit big-endian bit length. -/
def sha256Pad (msg : List Nat) : List Nat :=
  let l := msg.length
  let k := (64 + 55 - l % 64) % 64
  let bl := 8 * l
  msg ++ [0x80] ++ List.replicate k 0 ++
    [bl / 2 ^ 56 % 256, bl / 2 ^ 48 % 256, bl / 2 ^ 40 % 256, bl / 2 ^ 32 % 256,
     bl / 2 ^ 24 % 256, bl / 2 ^ 16 % 256, bl / 2 ^ 8 % 256, bl % 256]

/-- Split into 64-byte chunks; the fuel argument bounds the recursion. -/
def chunks64 : Nat → List Nat → List (List Nat)
  | 0, _ => []
  | _ + 1, [] => []
  | fuel + 1, l => l.take 64 :: chunks64 fuel (l.drop 64)

/-- Serialize 32-bit words back to big-endian bytes. -/
def bytesOfWords : List Nat → List Nat
  | [] => []
  | w :: ws => w / 2 ^ 24 % 256 :: w / 2 ^ 16 % 256 :: w / 2 ^ 8 % 256 :: w % 256 :: bytesOfWords ws

/-- SHA-256 of a byte string. -/
def sha256 (msg : List Nat) : List Nat :=
  let padded := sha256Pad msg
  bytesOfWords ((chunks64 padded.length padded).foldl sha256Compress sha256H0)

/-! ## HMAC (as provided by Python's `hmac.new(key, msg, hashlib.sha256)`) -/

/-- HMAC-SHA256 of `msg` keyed by `key` (RFC 2104 with a 64-byte block). -/
def hmacSha256 (key msg : List Nat) : List Nat :=
  let k0 := if key.length > 64 then sha256 key else key
  let kpad := k0 ++ List.replicate (64 - k0.length) 0
  let ipadded := kpad.map (fun b => b ^^^ 0x36)
  let opadded := kpad.map (fun b => b ^^^ 0x5c)
  sha256 (opadded ++ sha256 (ipadded ++ msg))

/-- UTF-8 encoding of one character, as Python's `str.encode('utf-8')`. -/
def utf8EncodeChar (c : Char) : List Nat :=
  let n := c.toNat
  if n < 0x80 then [n]
  else if n < 0x800 then [0xc0 ||| (n >>> 6), 0x80 ||| (n &&& 0x3f)]
  else if n < 0x10000 then
    [0xe0 ||| (n >>> 12), 0x80 ||| ((n >>> 6) &&& 0x3f), 0x80 ||| (n &&& 0x3f)]
  else
    [0xf0 ||| (n >>> 18), 0x80 ||| ((n >>> 12) &&& 0x3f),
     0x80 ||| ((n >>> 6) &&& 0x3f), 0x80 ||| (n &&& 0x3f)]

/-- UTF-8 encoding of a string, as Python's `str.encode('utf-8')`. -/
def utf8Encode (s : String) : List Nat := (s.data.map utf8EncodeChar).flatten

/-! ## Python string primitives used by the scripts -/

/-- The characters removed by Python's `str.strip()` with no argument (ASCII part). -/
def isPyWhitespace (c : Char) : Bool :=
  c = ' ' || c = '\t' || c = '\n' || c = '\x0d' || c = '\x0b' || c = '\x0c'

/-- Python's `str.strip()`: drop leading and trailing whitespace. -/
def pyStrip (s : String) : String :=
  String.mk (((s.data.dropWhile isPyWhitespace).reverse.dropWhile isPyWhitespace).reverse)

/-- Python's `str.upper()` (ASCII range, which covers the code alphabet). -/
def pyUpper (s : String) : String := String.mk (s.data.map Char.toUpper)

/-- Python's `str.lower()` (ASCII range, which covers the code alphabet). -/
def pyLower (s : String) : String := String.mk (s.data.map Char.toLower)

/-- Python's `f"{month:02d}-{year}"` period formatting. -/
def formatPeriod (month year : Nat) : String :=
  (if month < 10 then "0" else "") ++ toString month ++ "-" ++ toString year

/-! ## The deterministic code generator, one copy per source file

`serziam.py` and `serziamvalidator.py` each define a class
`DeterministicCodeGenerator` holding the secret seed, with the method
`generate_deterministic_code`; `serziamtest.py` defines a standalone function
over the module constant `SECRET_SEED`.  All three bodies are transcribed
separately, as they appear in their files. -/

/-- Constant `Config.SECRET_SEED`, identical in `serziam.py`, `serziamvalidator.py` and
`serziamtest.py`. -/
def SECRET_SEED : String := "asterisk_secure_deterministic_v1"

namespace Serziam

/-- The `DeterministicCodeGenerator` class of `serziam.py`: its state is the
secret seed given to the constructor. -/
structure DeterministicCodeGenerator where
  secret_seed : String

/-- Method `DeterministicCodeGenerator.generate_deterministic_code` of `serziam.py`:
HMAC-SHA256 of the period keyed by the secret seed, then one alphabet
character per output position `i`, indexed by `(digest[i % 32] + i) % 36`. -/
def DeterministicCodeGenerator.generate_deterministic_code
    (self : DeterministicCodeGenerator) (month_year : String) (length : Nat := 8) : String :=
  let hash_bytes := hmacSha256 (utf8Encode self.secret_seed) (utf8Encode month_year)
  let chars := "ABCDEFGHIJKLMNOPQRSTUVWXYZ0123456789".data
  let code_chars := (List.range length).map (fun i =>
    let byte_val := hash_bytes.getD (i % hash_bytes.length) 0 + i
    chars.getD (byte_val % chars.length) 'A')
  String.mk code_chars

end Serziam

namespace SerziamValidator

/-- The `DeterministicCodeGenerator` class of `serziamvalidator.py`. -/
structure DeterministicCodeGenerator where
  secret_seed : String

/-- Method `DeterministicCodeGenerator.generate_deterministic_code` of
`serziamvalidator.py` (the file's own copy of the algorithm). -/
def DeterministicCodeGenerator.generate_deterministic_code
    (self : DeterministicCodeGenerator) (month_year : String) (length : Nat := 8) : String :=
  let hash_bytes := hmacSha256 (utf8Encode self.secret_seed) (utf8Encode month_year)
  let chars := "ABCDEFGHIJKLMNOPQRSTUVWXYZ0123456789".data
  let code_chars := (List.range length).map (fun i =>
    let byte_val := hash_bytes.getD (i % hash_bytes.length) 0 + i
    chars.getD (byte_val % chars.length) 'A')
  String.mk code_chars

end SerziamValidator

namespace SerziamTest

/-- Function `generate_deterministic_code` of `serziamtest.py` (standalone copy over the
module-level `SECRET_SEED`). -/
def generate_deterministic_code (month_year : String) (length : Nat := 8) : String :=
  let hash_bytes := hmacSha256 (utf8Encode SECRET_SEED) (utf8Encode month_year)
  let chars := "ABCDEFGHIJKLMNOPQRSTUVWXYZ0123456789".data
  let code_chars := (List.range length).map (fun i =>
    let byte_val := hash_bytes.getD (i % hash_bytes.length) 0 + i
    chars.getD (byte_val % chars.length) 'A')
  String.mk code_chars

end SerziamTest

/-! ## Python `datetime` model

The scripts use `datetime.now()`, `datetime(y, m, d)` construction,
`- timedelta(days=1)`, `.replace(hour=.., minute=.., second=..)` and the
`>` comparison.  A `datetime` is a record of its calendar fields; comparison
is lexicographic on the fields, as in Python. -/

structure DateTime where
  year : Nat
  month : Nat
  day : Nat
  hour : Nat
  minute : Nat
  second : Nat
  microsecond : Nat
deriving DecidableEq, Repr

/-- Python `datetime` ordering: lexicographic on the calendar fields. -/
def dtLt (a b : DateTime) : Prop :=
  a.year < b.year ∨ (a.year = b.year ∧
    (a.month < b.month ∨ (a.month = b.month ∧
      (a.day < b.day ∨ (a.day = b.day ∧
        (a.hour < b.hour ∨ (a.hour = b.hour ∧
          (a.minute < b.minute ∨ (a.minute = b.minute ∧
            (a.second < b.second ∨ (a.second = b.second ∧
              a.microsecond < b.microsecond)))))))))))

instance (a b : DateTime) : Decidable (dtLt a b) := by unfold dtLt; infer_instance

/-- Gregorian leap-year rule, as implemented by Python's `datetime`. -/
def isLeapYear (y : Nat) : Bool := y % 4 = 0 && (y % 100 ≠ 0 || y % 400 = 0)

/-- Number of days of month `m` of year `y` in the Gregorian calendar used by
Python's `datetime`/`timedelta` arithmetic. -/
def daysInMonth (y m : Nat) : Nat :=
  if m = 2 then (if isLeapYear y then 29 else 28)
  else if m = 4 ∨ m = 6 ∨ m = 9 ∨ m = 11 then 30
  else 31

/-- Python's `dt - timedelta(days=1)`: the previous calendar day, keeping the
time-of-day fields. -/
def subOneDay (d : DateTime) : DateTime :=
  if d.day > 1 then { d with day := d.day - 1 }
  else if d.month > 1 then { d with month := d.month - 1, day := daysInMonth d.year (d.month - 1) }
  else { d with year := d.year - 1, month := 12, day := 31 }

namespace Serziam

/-- Method `DeterministicCodeGenerator.get_current_period` of `serziam.py`, with the
clock reading `datetime.now()` passed explicitly. -/
def get_current_period (now : DateTime) : String := formatPeriod now.month now.year

/-- Method `DeterministicCodeGenerator.get_current_code` of `serziam.py` for the
`HiddenAccessCodeManager` (constructed with `Config.SECRET_SEED`). -/
def get_current_code (now : DateTime) : String :=
  DeterministicCodeGenerator.generate_deterministic_code ⟨SECRET_SEED⟩ (get_current_period now)

/-- Method `HiddenAccessCodeManager.get_current_code_with_expiry` of `serziam.py`:
the current code together with its expiry, computed as the first day of the
next month (rolling December to January) minus one day, with the time fields
replaced by 23:59:59. -/
def get_current_code_with_expiry (now : DateTime) : String × DateTime :=
  let code := get_current_code now
  let next_month : DateTime :=
    if now.month = 12 then ⟨now.year + 1, 1, 1, 0, 0, 0, 0⟩
    else ⟨now.year, now.month + 1, 1, 0, 0, 0, 0⟩
  let expires_at := subOneDay next_month
  (code, { expires_at with hour := 23, minute := 59, second := 59 })

/-- Method `HiddenAccessCodeManager.validate_code` of `serziam.py`: exact string
equality with the current code (no normalization inside the method). -/
def validate_code (now : DateTime) (input_code : String) : Bool :=
  let expected_code := get_current_code now
  input_code == expected_code

/-- Method `HiddenAccessCodeManager.is_code_expired` of `serziam.py`:
`datetime.now() > expires_at`. -/
def is_code_expired (now : DateTime) : Bool :=
  let expires_at := (get_current_code_with_expiry now).2
  decide (dtLt expires_at now)

/-! ### The unlock prompt of `AccessControlSystem._prompt_for_new_code`

The dialogue is modelled over the list of codes the operator enters (an
exhausted list is the operator aborting the prompt, `KeyboardInterrupt` in the
source).  `start_ok` is the outcome of `AsteriskManager.start()`.  The result
records how the dialogue ended together with the number of prompts offered. -/

inductive PromptResult where
  | unlocked
  | start_failed
  | blocked
  | cancelled
deriving DecidableEq, Repr

/-- The return value of `_prompt_for_new_code` (`True` only on unlock with a
successful Asterisk restart). -/
def PromptResult.toBool : PromptResult → Bool
  | .unlocked => true
  | _ => false

/-- The `while attempts > 0` loop of `_prompt_for_new_code`: each iteration
reads a code, normalizes it with `.strip().upper()`, and validates it; a
failure decrements `attempts`, reaching 0 blocks the session. -/
def prompt_loop (now : DateTime) (start_ok : Bool) :
    Nat → List String → PromptResult × Nat
  | _, [] => (.cancelled, 0)
  | 0, _ => (.blocked, 0)
  | attempts + 1, inp :: rest =>
    let entered_code := pyUpper (pyStrip inp)
    if validate_code now entered_code then
      (if start_ok then (.unlocked, 1) else (.start_failed, 1))
    else
      if attempts > 0 then
        let r := prompt_loop now start_ok attempts rest
        (r.1, r.2 + 1)
      else (.blocked, 1)

/-- Method `AccessControlSystem._prompt_for_new_code` of `serziam.py`: the unlock
dialogue, entered with `attempts = 3`. -/
def prompt_for_new_code (now : DateTime) (start_ok : Bool) (inputs : List String) :
    PromptResult × Nat :=
  prompt_loop now start_ok 3 inputs

end Serziam

namespace SerziamValidator

/-- Method `DeterministicCodeGenerator.get_current_period` of `serziamvalidator.py`. -/
def get_current_period (now : DateTime) : String := formatPeriod now.month now.year

/-- Method `DeterministicCodeGenerator.get_current_code` of `serziamvalidator.py` for
the `VisibleAccessCodeManager` (constructed with `Config.SECRET_SEED`). -/
def get_current_code (now : DateTime) : String :=
  DeterministicCodeGenerator.generate_deterministic_code ⟨SECRET_SEED⟩ (get_current_period now)

/-- Method `VisibleAccessCodeManager.display_code_status` of `serziamvalidator.py`:
returns the code and the expiry it computes (first day of next month, rolling
December, minus one day, time replaced by 23:59:59). -/
def display_code_status (now : DateTime) : String × DateTime :=
  let code := get_current_code now
  let next_month : DateTime :=
    if now.month = 12 then ⟨now.year + 1, 1, 1, 0, 0, 0, 0⟩
    else ⟨now.year, now.month + 1, 1, 0, 0, 0, 0⟩
  let expires_at := subOneDay next_month
  (code, { expires_at with hour := 23, minute := 59, second := 59 })

/-- Method `VisibleAccessCodeManager.validate_code` of `serziamvalidator.py`. -/
def validate_code (now : DateTime) (input_code : String) : Bool :=
  let expected_code := get_current_code now
  input_code == expected_code

end SerziamValidator

/-- The validation pipeline as invoked at every call site of `validate_code`
(`_prompt_for_new_code` and `validate_code_menu` in `serziam.py`): the raw
entered string is normalized with `.strip().upper()` and then compared with
the current code by `validate_code`. -/
def Serziam.validate_entered (now : DateTime) (raw : String) : Bool :=
  Serziam.validate_code now (pyUpper (pyStrip raw))

/-- The derivation exactly as the specification words it: position `i` of the
output is the character at index `(digest[i mod 32] + i) mod 36` of the
36-character alphabet, where `digest` is the HMAC-SHA256 of the UTF-8 bytes of
the period keyed by the UTF-8 bytes of the secret. -/
def deriveCodeSpec (p s : String) (n : Nat) : String :=
  let digest := hmacSha256 (utf8Encode s) (utf8Encode p)
  String.mk ((List.range n).map (fun i =>
    "ABCDEFGHIJKLMNOPQRSTUVWXYZ0123456789".data.getD ((digest.getD (i % 32) 0 + i) % 36) 'A'))

/-- The expiry instant as the specification words it: 23:59:59 on the last
calendar day of the period's month. -/
def expiryOfPeriod (month year : Nat) : DateTime :=
  ⟨year, month, daysInMonth year month, 23, 59, 59, 0⟩

/-! ## Shared lemmas -/

theorem roundStep_length (st : List Nat) (kw : Nat × Nat) :
    (roundStep st kw).length = st.length := by
  unfold roundStep; split <;> simp_all

theorem foldl_roundStep_length (l : List (Nat × Nat)) (st : List Nat) :
    (l.foldl roundStep st).length = st.length := by
  induction l generalizing st with
  | nil => rfl
  | cons a t ih => simp [List.foldl, ih, roundStep_length]

theorem sha256Compress_length (h b : List Nat) (hh : h.length = 8) :
    (sha256Compress h b).length = 8 := by
  unfold sha256Compress
  simp [List.length_zip, foldl_roundStep_length, hh]

theorem foldl_sha256Compress_length (bs : List (List Nat)) (h : List Nat)
    (hh : h.length = 8) : (bs.foldl sha256Compress h).length = 8 := by
  induction bs generalizing h with
  | nil => exact hh
  | cons b t ih => exact ih _ (sha256Compress_length _ _ hh)

theorem bytesOfWords_length (ws : List Nat) : (bytesOfWords ws).length = 4 * ws.length := by
  induction ws with
  | nil => rfl
  | cons w t ih => simp [bytesOfWords, ih]; ring

/-- SHA-256 always produces a 32-byte digest. -/
theorem sha256_length (msg : List Nat) : (sha256 msg).length = 32 := by
  unfold sha256
  rw [bytesOfWords_length, foldl_sha256Compress_length _ _ (by rfl)]

/-- HMAC-SHA256 always produces a 32-byte digest. -/
theorem hmacSha256_length (key msg : List Nat) : (hmacSha256 key msg).length = 32 :=
  sha256_length _

/-- For a valid month, the computed expiry is 23:59:59 (microsecond 0) on the
last day of the invocation month. -/
theorem get_expiry_eq (now : DateTime) (h1 : 1 ≤ now.month) (h2 : now.month ≤ 12) :
    (Serziam.get_current_code_with_expiry now).2
      = ⟨now.year, now.month, daysInMonth now.year now.month, 23, 59, 59, 0⟩ := by
  by_cases hm : now.month = 12
  · simp [Serziam.get_current_code_with_expiry, subOneDay, hm, daysInMonth, isLeapYear]
  · have hm1 : ¬ (1 : Nat) > 1 := by omega
    have hm2 : now.month + 1 > 1 := by omega
    simp [Serziam.get_current_code_with_expiry, subOneDay, hm, hm1, hm2]

/-- The generated code always has exactly the requested length. -/
theorem generate_length (self : Serziam.DeterministicCodeGenerator) (my : String) (n : Nat) :
    (self.generate_deterministic_code my n).length = n := by
  unfold Serziam.DeterministicCodeGenerator.generate_deterministic_code
  simp [String.length]

/-- Every character of a generated code belongs to the 36-character alphabet. -/
theorem generate_mem_alphabet (self : Serziam.DeterministicCodeGenerator) (my : String)
    (n : Nat) :
    ∀ c ∈ (self.generate_deterministic_code my n).data,
      c ∈ "ABCDEFGHIJKLMNOPQRSTUVWXYZ0123456789".data := by
  unfold Serziam.DeterministicCodeGenerator.generate_deterministic_code
  intro c hc
  simp only [String.data] at hc
  simp only [List.mem_map] at hc
  obtain ⟨i, _, rfl⟩ := hc
  have hlen : ("ABCDEFGHIJKLMNOPQRSTUVWXYZ0123456789".data).length = 36 := by decide
  have hmod : ((hmacSha256 (utf8Encode self.secret_seed) (utf8Encode my)).getD
      (i % (hmacSha256 (utf8Encode self.secret_seed) (utf8Encode my)).length) 0 + i)
      % ("ABCDEFGHIJKLMNOPQRSTUVWXYZ0123456789".data).length
      < ("ABCDEFGHIJKLMNOPQRSTUVWXYZ0123456789".data).length := by
    exact Nat.mod_lt _ (by rw [hlen]; omega)
  rw [List.getD_eq_getElem _ _ hmod]
  exact List.getElem_mem _

/-- Lemma: `dropWhile` is the identity on a list none of whose elements satisfy the
predicate. -/
theorem dropWhile_eq_self_of_forall {p : Char → Bool} {l : List Char}
    (h : ∀ c ∈ l, p c = false) : l.dropWhile p = l := by
  cases l with
  | nil => rfl
  | cons a t => rw [List.dropWhile_cons]; simp [h a (by simp)]

/-- Lemma: `pyStrip` is the identity on a string with no whitespace characters. -/
theorem pyStrip_eq_self {s : String} (h : ∀ c ∈ s.data, isPyWhitespace c = false) :
    pyStrip s = s := by
  unfold pyStrip
  rw [dropWhile_eq_self_of_forall h,
      dropWhile_eq_self_of_forall (fun c hc => h c (List.mem_reverse.mp hc)),
      List.reverse_reverse]

/-- Re-uppercasing after lowercasing is the identity on such character lists. -/
theorem map_upper_lower_id {l : List Char}
    (h : ∀ c ∈ l, Char.toUpper (Char.toLower c) = c) :
    (l.map Char.toLower).map Char.toUpper = l := by
  induction l with
  | nil => rfl
  | cons a t ih =>
    simp only [List.map_cons, List.cons.injEq]
    exact ⟨h a (by simp), ih fun c hc => h c (List.mem_cons_of_mem _ hc)⟩

/-- Alphabet characters survive a lowercase/uppercase round trip and are never
whitespace, before or after lowercasing. -/
theorem alphabet_chars_ok :
    ∀ c ∈ "ABCDEFGHIJKLMNOPQRSTUVWXYZ0123456789".data,
      Char.toUpper (Char.toLower c) = c ∧ isPyWhitespace c = false ∧
        isPyWhitespace (Char.toLower c) = false := by decide

/-! ## Claims -/

/-- C1: for every period `p`, secret `s` and length `n`, the derivation (in
both the `serziam.py` and the `serziamvalidator.py` copy) equals the
concatenation, for `i` from 0 to `n-1`, of the character at index
`(digest[i mod 32] + i) mod 36` of the alphabet `A-Z0-9`, where `digest` is
the 32-byte HMAC-SHA256 of the UTF-8 bytes of `p` keyed by the UTF-8 bytes of
`s`. -/
theorem c1_derive_matches_spec (p s : String) (n : Nat) :
    Serziam.DeterministicCodeGenerator.generate_deterministic_code ⟨s⟩ p n
      = deriveCodeSpec p s n
    ∧ SerziamValidator.DeterministicCodeGenerator.generate_deterministic_code ⟨s⟩ p n
      = deriveCodeSpec p s n := by
  have h32 : (hmacSha256 (utf8Encode s) (utf8Encode p)).length = 32 := hmacSha256_length _ _
  have h36 : ("ABCDEFGHIJKLMNOPQRSTUVWXYZ0123456789".data).length = 36 := by decide
  constructor
  · unfold Serziam.DeterministicCodeGenerator.generate_deterministic_code deriveCodeSpec
    simp only [h32, h36]
  · unfold SerziamValidator.DeterministicCodeGenerator.generate_deterministic_code deriveCodeSpec
    simp only [h32, h36]

/-- C2: the derivation is deterministic across instances and across the three
source-file copies: two `serziam.py` generator instances sharing a secret, a
`serziamvalidator.py` instance with the same secret, and the `serziamtest.py`
function (whose secret is the module constant) all return the identical code
string for the same period and length. -/
theorem c2_deterministic_across_copies
    (g1 g3 : Serziam.DeterministicCodeGenerator)
    (g2 : SerziamValidator.DeterministicCodeGenerator) (p : String) (n : Nat)
    (h13 : g1.secret_seed = g3.secret_seed)
    (h12 : g1.secret_seed = g2.secret_seed)
    (hT : g1.secret_seed = SECRET_SEED) :
    g1.generate_deterministic_code p n = g3.generate_deterministic_code p n
    ∧ g1.generate_deterministic_code p n = g2.generate_deterministic_code p n
    ∧ g1.generate_deterministic_code p n = SerziamTest.generate_deterministic_code p n := by
  obtain ⟨s1⟩ := g1
  obtain ⟨s3⟩ := g3
  obtain ⟨s2⟩ := g2
  replace h13 : s1 = s3 := h13
  replace h12 : s1 = s2 := h12
  replace hT : s1 = SECRET_SEED := hT
  subst h13 h12 hT
  exact ⟨rfl, rfl, rfl⟩

/-- Witness for C2 at the deployed secret, period `06-2025` and length 8. -/
theorem c2_deterministic_across_copies_witness :
    Serziam.DeterministicCodeGenerator.generate_deterministic_code ⟨SECRET_SEED⟩ "06-2025" 8
      = Serziam.DeterministicCodeGenerator.generate_deterministic_code ⟨SECRET_SEED⟩ "06-2025" 8
    ∧ Serziam.DeterministicCodeGenerator.generate_deterministic_code ⟨SECRET_SEED⟩ "06-2025" 8
      = SerziamValidator.DeterministicCodeGenerator.generate_deterministic_code ⟨SECRET_SEED⟩
          "06-2025" 8
    ∧ Serziam.DeterministicCodeGenerator.generate_deterministic_code ⟨SECRET_SEED⟩ "06-2025" 8
      = SerziamTest.generate_deterministic_code "06-2025" 8 :=
  c2_deterministic_across_copies ⟨SECRET_SEED⟩ ⟨SECRET_SEED⟩ ⟨SECRET_SEED⟩ "06-2025" 8
    rfl rfl rfl

/-- C8: the derivation is total for every length, including lengths beyond the
32-byte digest: the digest access index `i mod 32` and the alphabet access
index `(digest[i mod 32] + i) mod 36` are always in bounds (the addition is
exact `Nat` arithmetic, as Python's unbounded integers), and the code has the
requested length. -/
theorem c8_derivation_total (secret my : String) (n i : Nat) (hi : i < n) :
    (hmacSha256 (utf8Encode secret) (utf8Encode my)).length = 32
    ∧ i % (hmacSha256 (utf8Encode secret) (utf8Encode my)).length
        < (hmacSha256 (utf8Encode secret) (utf8Encode my)).length
    ∧ ((hmacSha256 (utf8Encode secret) (utf8Encode my)).getD
          (i % (hmacSha256 (utf8Encode secret) (utf8Encode my)).length) 0 + i)
        % ("ABCDEFGHIJKLMNOPQRSTUVWXYZ0123456789".data).length
        < ("ABCDEFGHIJKLMNOPQRSTUVWXYZ0123456789".data).length
    ∧ (Serziam.DeterministicCodeGenerator.generate_deterministic_code ⟨secret⟩ my n).length
        = n
    ∧ (Serziam.DeterministicCodeGenerator.generate_deterministic_code ⟨secret⟩ my n).data.getD
        i 'A' ∈ "ABCDEFGHIJKLMNOPQRSTUVWXYZ0123456789".data := by
  have h32 : (hmacSha256 (utf8Encode secret) (utf8Encode my)).length = 32 :=
    hmacSha256_length _ _
  have h36 : ("ABCDEFGHIJKLMNOPQRSTUVWXYZ0123456789".data).length = 36 := by decide
  have hd : (Serziam.DeterministicCodeGenerator.generate_deterministic_code
      ⟨secret⟩ my n).data.length = n := generate_length ⟨secret⟩ my n
  refine ⟨h32, ?_, ?_, generate_length _ _ _, ?_⟩
  · exact Nat.mod_lt _ (by omega)
  · exact Nat.mod_lt _ (by omega)
  · rw [List.getD_eq_getElem _ _ (by rw [hd]; exact hi)]
    exact generate_mem_alphabet _ _ _ _ (List.getElem_mem _)

/-- Witness for C8 at a position of a 40-character code, a length exceeding
the 32-byte digest. -/
theorem c8_derivation_total_witness :
    (hmacSha256 (utf8Encode SECRET_SEED) (utf8Encode "06-2025")).length = 32
    ∧ 35 % (hmacSha256 (utf8Encode SECRET_SEED) (utf8Encode "06-2025")).length
        < (hmacSha256 (utf8Encode SECRET_SEED) (utf8Encode "06-2025")).length
    ∧ ((hmacSha256 (utf8Encode SECRET_SEED) (utf8Encode "06-2025")).getD
          (35 % (hmacSha256 (utf8Encode SECRET_SEED) (utf8Encode "06-2025")).length) 0 + 35)
        % ("ABCDEFGHIJKLMNOPQRSTUVWXYZ0123456789".data).length
        < ("ABCDEFGHIJKLMNOPQRSTUVWXYZ0123456789".data).length
    ∧ (Serziam.DeterministicCodeGenerator.generate_deterministic_code ⟨SECRET_SEED⟩
        "06-2025" 40).length = 40
    ∧ (Serziam.DeterministicCodeGenerator.generate_deterministic_code ⟨SECRET_SEED⟩
        "06-2025" 40).data.getD 35 'A' ∈ "ABCDEFGHIJKLMNOPQRSTUVWXYZ0123456789".data :=
  c8_derivation_total SECRET_SEED "06-2025" 40 35 (by decide)

/-- C9: the derivation is length-prefix monotone — a shorter code is a prefix
of a longer one for the same period and secret — and length 0 yields the
empty string. -/
theorem c9_prefix_monotone (secret my : String) (m n : Nat) (hmn : m ≤ n) :
    (Serziam.DeterministicCodeGenerator.generate_deterministic_code ⟨secret⟩ my m).data
      <+: (Serziam.DeterministicCodeGenerator.generate_deterministic_code ⟨secret⟩ my n).data
    ∧ Serziam.DeterministicCodeGenerator.generate_deterministic_code ⟨secret⟩ my 0 = "" := by
  constructor
  · unfold Serziam.DeterministicCodeGenerator.generate_deterministic_code
    have hr : List.range m = (List.range n).take m := by
      rw [List.take_range, Nat.min_eq_left hmn]
    simp only [String.data]
    rw [hr, List.map_take]
    exact List.take_prefix _ _
  · rfl

/-- Witness for C9: the 3-character code is a prefix of the 40-character one. -/
theorem c9_prefix_monotone_witness :
    (Serziam.DeterministicCodeGenerator.generate_deterministic_code ⟨SECRET_SEED⟩
        "06-2025" 3).data
      <+: (Serziam.DeterministicCodeGenerator.generate_deterministic_code ⟨SECRET_SEED⟩
        "06-2025" 40).data
    ∧ Serziam.DeterministicCodeGenerator.generate_deterministic_code ⟨SECRET_SEED⟩
        "06-2025" 0 = "" :=
  c9_prefix_monotone SECRET_SEED "06-2025" 3 40 (by decide)

/-- C3: for every valid month and year the computed expiry is 23:59:59 on the
last calendar day of the invocation month (December rolling to January is
covered by the general statement); the `serziamvalidator.py` copy computes the
same expiry; and the three concrete periods 12-2024, 02-2024 (leap) and
02-2025 yield the stated instants. -/
theorem c3_expiry_is_month_end (now : DateTime) (h1 : 1 ≤ now.month) (h2 : now.month ≤ 12)
    (_hy : 1970 ≤ now.year) :
    (Serziam.get_current_code_with_expiry now).2
      = ⟨now.year, now.month, daysInMonth now.year now.month, 23, 59, 59, 0⟩
    ∧ (SerziamValidator.display_code_status now).2 = (Serziam.get_current_code_with_expiry now).2
    ∧ (Serziam.get_current_code_with_expiry ⟨2024, 12, 5, 0, 0, 0, 0⟩).2
        = ⟨2024, 12, 31, 23, 59, 59, 0⟩
    ∧ (Serziam.get_current_code_with_expiry ⟨2024, 2, 5, 0, 0, 0, 0⟩).2
        = ⟨2024, 2, 29, 23, 59, 59, 0⟩
    ∧ (Serziam.get_current_code_with_expiry ⟨2025, 2, 5, 0, 0, 0, 0⟩).2
        = ⟨2025, 2, 28, 23, 59, 59, 0⟩ :=
  ⟨get_expiry_eq now h1 h2, rfl, by decide, by decide, by decide⟩

/-- Witness for C3 at an instant in December 2024. -/
theorem c3_expiry_is_month_end_witness :
    (Serziam.get_current_code_with_expiry ⟨2024, 12, 15, 10, 0, 0, 0⟩).2
      = ⟨2024, 12, daysInMonth 2024 12, 23, 59, 59, 0⟩ :=
  (c3_expiry_is_month_end ⟨2024, 12, 15, 10, 0, 0, 0⟩ (by decide) (by decide) (by decide)).1

/-- C7 counterexample: 2024-12-31 23:59:59.500000 lies within December 2024
(every field within the month's range) yet `is_code_expired` reports the code
expired, because the computed expiry has microsecond 0. -/
theorem c7_counterexample :
    Serziam.is_code_expired ⟨2024, 12, 31, 23, 59, 59, 500000⟩ = true
    ∧ (⟨2024, 12, 31, 23, 59, 59, 500000⟩ : DateTime).day ≤ daysInMonth 2024 12
    ∧ (⟨2024, 12, 31, 23, 59, 59, 500000⟩ : DateTime).hour ≤ 23
    ∧ (⟨2024, 12, 31, 23, 59, 59, 500000⟩ : DateTime).minute ≤ 59
    ∧ (⟨2024, 12, 31, 23, 59, 59, 500000⟩ : DateTime).second ≤ 59 := by decide

/-- C7 amended: `is_code_expired now` is true exactly when `now` is strictly
after 23:59:59.000000 on the last day of `now`'s month; consequently it is
false for any `now` within the month, except for the instants of the final
second that carry a nonzero microsecond component. -/
theorem c7_expired_iff_after_expiry (now : DateTime) (h1 : 1 ≤ now.month)
    (h2 : now.month ≤ 12) :
    (Serziam.is_code_expired now = true ↔ dtLt (expiryOfPeriod now.month now.year) now)
    ∧ (now.day ≤ daysInMonth now.year now.month → now.hour ≤ 23 → now.minute ≤ 59 →
        now.second ≤ 59 →
        ¬(now.day = daysInMonth now.year now.month ∧ now.hour = 23 ∧ now.minute = 59 ∧
          now.second = 59 ∧ 0 < now.microsecond) →
        Serziam.is_code_expired now = false) := by
  have he := get_expiry_eq now h1 h2
  constructor
  · simp only [Serziam.is_code_expired]
    rw [he]
    simp only [expiryOfPeriod, decide_eq_true_eq]
  · intro hd hh hmi hs hex
    simp only [Serziam.is_code_expired]
    rw [he]
    apply decide_eq_false
    unfold dtLt
    dsimp only
    omega

/-- Witness for C7 at an instant in mid-December 2024 (not expired). -/
theorem c7_expired_iff_after_expiry_witness :
    Serziam.is_code_expired ⟨2024, 12, 15, 10, 0, 0, 0⟩ = false :=
  (c7_expired_iff_after_expiry ⟨2024, 12, 15, 10, 0, 0, 0⟩ (by decide) (by decide)).2
    (by decide) (by decide) (by decide) (by decide) (by decide)

/-- C10 counterexample: for the invocation instant 2024-05-15 10:30:00.123456
the computed expiry has microsecond 0 — the invocation's 123456 is not
preserved — and the expiry is not strictly later than 23:59:59.000000 of the
last day of the month. -/
theorem c10_counterexample :
    (Serziam.get_current_code_with_expiry ⟨2024, 5, 15, 10, 30, 0, 123456⟩).2.microsecond = 0
    ∧ (⟨2024, 5, 15, 10, 30, 0, 123456⟩ : DateTime).microsecond = 123456
    ∧ (Serziam.get_current_code_with_expiry ⟨2024, 5, 15, 10, 30, 0, 123456⟩).2.microsecond
        ≠ (⟨2024, 5, 15, 10, 30, 0, 123456⟩ : DateTime).microsecond
    ∧ ¬ dtLt ⟨2024, 5, 31, 23, 59, 59, 0⟩
        (Serziam.get_current_code_with_expiry ⟨2024, 5, 15, 10, 30, 0, 123456⟩).2 := by decide

/-- C10 amended: the expiry is built from a freshly constructed first-of-next-
month `datetime` (microsecond 0), so `replace(hour=23, minute=59, second=59)`
always yields time 23:59:59.000000 — the invocation instant's sub-second
component is never inherited. -/
theorem c10_expiry_time_is_exact (now : DateTime) :
    (Serziam.get_current_code_with_expiry now).2.hour = 23
    ∧ (Serziam.get_current_code_with_expiry now).2.minute = 59
    ∧ (Serziam.get_current_code_with_expiry now).2.second = 59
    ∧ (Serziam.get_current_code_with_expiry now).2.microsecond = 0 := by
  simp only [Serziam.get_current_code_with_expiry, subOneDay]
  split_ifs <;> simp

/-- C4: the validation pipeline accepts exactly the strings whose
`.strip().upper()` normalization equals the current-period code; in particular
it rejects the empty string, rejects the previous month's code after the
December 2024 rollover, accepts the lowercase rendition of the correct code,
and the `serziamvalidator.py` copy of `validate_code` agrees with the
`serziam.py` one. -/
theorem c4_validate_exact_match (now : DateTime) (raw : String) :
    (Serziam.validate_entered now raw = true ↔
      pyUpper (pyStrip raw)
        = Serziam.DeterministicCodeGenerator.generate_deterministic_code ⟨SECRET_SEED⟩
            (Serziam.get_current_period now) 8)
    ∧ Serziam.validate_entered now "" = false
    ∧ Serziam.validate_entered ⟨2024, 12, 5, 0, 0, 0, 0⟩
        (Serziam.DeterministicCodeGenerator.generate_deterministic_code ⟨SECRET_SEED⟩
          "11-2024" 8) = false
    ∧ Serziam.validate_entered now (pyLower (Serziam.get_current_code now)) = true
    ∧ (∀ s, SerziamValidator.validate_code now s = Serziam.validate_code now s) := by
  have hcode : ∀ c ∈ (Serziam.get_current_code now).data,
      c ∈ "ABCDEFGHIJKLMNOPQRSTUVWXYZ0123456789".data :=
    generate_mem_alphabet ⟨SECRET_SEED⟩ (Serziam.get_current_period now) 8
  refine ⟨?_, ?_, by decide, ?_, fun s => rfl⟩
  · simp only [Serziam.validate_entered, Serziam.validate_code, Serziam.get_current_code,
      beq_iff_eq]
  · have hne : ("" : String) ≠ Serziam.get_current_code now := by
      intro h
      have hl := congrArg String.length h
      simp only [Serziam.get_current_code] at hl
      rw [generate_length] at hl
      simp at hl
    have h0 : pyUpper (pyStrip "") = "" := rfl
    simp only [Serziam.validate_entered, Serziam.validate_code, h0]
    exact beq_eq_false_iff_ne.mpr hne
  · have hlow : ∀ c ∈ (pyLower (Serziam.get_current_code now)).data,
        isPyWhitespace c = false := by
      intro c hc
      obtain ⟨c', hc', rfl⟩ := List.mem_map.mp hc
      exact (alphabet_chars_ok c' (hcode c' hc')).2.2
    have hstrip : pyStrip (pyLower (Serziam.get_current_code now))
        = pyLower (Serziam.get_current_code now) := pyStrip_eq_self hlow
    have hupper : pyUpper (pyLower (Serziam.get_current_code now))
        = Serziam.get_current_code now := by
      simp only [pyUpper, pyLower]
      rw [map_upper_lower_id (fun c hc => (alphabet_chars_ok c (hcode c hc)).1)]
    simp only [Serziam.validate_entered, Serziam.validate_code, hstrip, hupper]
    exact beq_self_eq_true _

/-- Witness for C4: the empty string is rejected at an instant in June 2025. -/
theorem c4_validate_exact_match_witness :
    Serziam.validate_entered ⟨2025, 6, 1, 0, 0, 0, 0⟩ "" = false :=
  (c4_validate_exact_match ⟨2025, 6, 1, 0, 0, 0, 0⟩ "x").2.1

/-- C5: the unlock dialogue starts with 3 attempts; three consecutive failed
validations end it blocked with exactly 3 prompts offered (no fourth, whatever
further input is available); a success at the first, second or third attempt
prevents the blocked-by-exhaustion outcome; and one or two failures with no
further input end in cancellation, not in the blocked state. -/
theorem c5_blocked_after_three_failures (now : DateTime) (start_ok : Bool) :
    (∀ i1 i2 i3 rest, Serziam.validate_code now (pyUpper (pyStrip i1)) = false →
        Serziam.validate_code now (pyUpper (pyStrip i2)) = false →
        Serziam.validate_code now (pyUpper (pyStrip i3)) = false →
        Serziam.prompt_for_new_code now start_ok (i1 :: i2 :: i3 :: rest)
          = (Serziam.PromptResult.blocked, 3))
    ∧ (∀ i1 rest, Serziam.validate_code now (pyUpper (pyStrip i1)) = true →
        (Serziam.prompt_for_new_code now start_ok (i1 :: rest)).1
          ≠ Serziam.PromptResult.blocked)
    ∧ (∀ i1 i2 rest, Serziam.validate_code now (pyUpper (pyStrip i1)) = false →
        Serziam.validate_code now (pyUpper (pyStrip i2)) = true →
        (Serziam.prompt_for_new_code now start_ok (i1 :: i2 :: rest)).1
          ≠ Serziam.PromptResult.blocked)
    ∧ (∀ i1 i2 i3 rest, Serziam.validate_code now (pyUpper (pyStrip i1)) = false →
        Serziam.validate_code now (pyUpper (pyStrip i2)) = false →
        Serziam.validate_code now (pyUpper (pyStrip i3)) = true →
        (Serziam.prompt_for_new_code now start_ok (i1 :: i2 :: i3 :: rest)).1
          ≠ Serziam.PromptResult.blocked)
    ∧ (∀ i1 i2, Serziam.validate_code now (pyUpper (pyStrip i1)) = false →
        Serziam.validate_code now (pyUpper (pyStrip i2)) = false →
        Serziam.prompt_for_new_code now start_ok [i1, i2]
          = (Serziam.PromptResult.cancelled, 2)) := by
  refine ⟨?_, ?_, ?_, ?_, ?_⟩
  · intro i1 i2 i3 rest h1 h2 h3
    simp [Serziam.prompt_for_new_code, Serziam.prompt_loop, h1, h2, h3]
  · intro i1 rest h1
    cases start_ok <;>
      simp [Serziam.prompt_for_new_code, Serziam.prompt_loop, h1]
  · intro i1 i2 rest h1 h2
    cases start_ok <;>
      simp [Serziam.prompt_for_new_code, Serziam.prompt_loop, h1, h2]
  · intro i1 i2 i3 rest h1 h2 h3
    cases start_ok <;>
      simp [Serziam.prompt_for_new_code, Serziam.prompt_loop, h1, h2, h3]
  · intro i1 i2 h1 h2
    simp [Serziam.prompt_for_new_code, Serziam.prompt_loop, h1, h2]

/-- Witness for C5: three wrong codes at an instant in June 2025 block the
session after exactly 3 prompts. -/
theorem c5_blocked_after_three_failures_witness :
    Serziam.prompt_for_new_code ⟨2025, 6, 1, 0, 0, 0, 0⟩ true ["a", "b", "c"]
      = (Serziam.PromptResult.blocked, 3) :=
  (c5_blocked_after_three_failures ⟨2025, 6, 1, 0, 0, 0, 0⟩ true).1 "a" "b" "c" []
    (by decide) (by decide) (by decide)

/-- C6 counterexample: at an instant in June 2025 the operator enters a string
that validates successfully (the lowercase current code), yet when the
Asterisk restart fails the dialogue does not end unlocked — it reports the
restart failure and returns `False`. -/
theorem c6_counterexample :
    Serziam.validate_code ⟨2025, 6, 1, 0, 0, 0, 0⟩ (pyUpper (pyStrip "tesxsjgm")) = true
    ∧ Serziam.prompt_for_new_code ⟨2025, 6, 1, 0, 0, 0, 0⟩ false ["tesxsjgm"]
        = (Serziam.PromptResult.start_failed, 1)
    ∧ Serziam.PromptResult.start_failed ≠ Serziam.PromptResult.unlocked
    ∧ Serziam.PromptResult.start_failed.toBool = false := by decide

/-- C6 amended: at any attempt `PROMPTING(n)` with `n ≥ 1`, a successful
validation ends the dialogue at once — unlocked when the gated service
restarts successfully, and as a reported restart failure (not unlocked)
otherwise; in particular the dialogue entered with 3 attempts unlocks on a
first-try success when the restart succeeds. -/
theorem c6_success_unlocks (now : DateTime) (attempts : Nat) (inp : String)
    (rest : List String)
    (hsucc : Serziam.validate_code now (pyUpper (pyStrip inp)) = true) :
    Serziam.prompt_loop now true (attempts + 1) (inp :: rest)
      = (Serziam.PromptResult.unlocked, 1)
    ∧ Serziam.prompt_loop now false (attempts + 1) (inp :: rest)
      = (Serziam.PromptResult.start_failed, 1)
    ∧ Serziam.prompt_for_new_code now true (inp :: rest)
      = (Serziam.PromptResult.unlocked, 1)
    ∧ (Serziam.prompt_for_new_code now true (inp :: rest)).1.toBool = true := by
  refine ⟨?_, ?_, ?_, ?_⟩ <;>
    simp [Serziam.prompt_for_new_code, Serziam.prompt_loop, hsucc, Serziam.PromptResult.toBool]

/-- Witness for C6 at `PROMPTING(3)` in June 2025 with the lowercase current
code entered. -/
theorem c6_success_unlocks_witness :
    Serziam.prompt_loop ⟨2025, 6, 1, 0, 0, 0, 0⟩ true (2 + 1) ["tesxsjgm"]
      = (Serziam.PromptResult.unlocked, 1)
    ∧ Serziam.prompt_loop ⟨2025, 6, 1, 0, 0, 0, 0⟩ false (2 + 1) ["tesxsjgm"]
      = (Serziam.PromptResult.start_failed, 1)
    ∧ Serziam.prompt_for_new_code ⟨2025, 6, 1, 0, 0, 0, 0⟩ true ["tesxsjgm"]
      = (Serziam.PromptResult.unlocked, 1)
    ∧ (Serziam.prompt_for_new_code ⟨2025, 6, 1, 0, 0, 0, 0⟩ true ["tesxsjgm"]).1.toBool
      = true :=
  c6_success_unlocks ⟨2025, 6, 1, 0, 0, 0, 0⟩ 2 "tesxsjgm" [] (by decide)
